import Mathlib

/-!
Shallow embedding of the tool-augmented chat assistant
(`src/app/api/chat/tools.ts` and the chat route handler) and proofs about it.

Conventions of the embedding:
* JavaScript numbers are idealised as rationals (`ℚ`); the printable values
  occurring in the claims are integers or finite decimal fractions, where the
  idealisation agrees with IEEE doubles.
* An `async` tool body that may `throw` is a function into `Except JsError α`;
  the surrounding `try { ... } catch { return msg }` is the `runTool` wrapper.
* Every upstream effect (`fetch`, `res.json()`, `Intl` formatting,
  `Date#toLocaleDateString`) is a component of an explicit per-tool
  environment record, so a single invocation is a pure function of its
  arguments and that environment.
-/

namespace Sambhala

/-- A thrown JavaScript error value, modelled by its message. -/
structure JsError where
  message : String
deriving Repr, DecidableEq

/-- The `process.env` entries read by the tools file.  A variable is `none`
when unset; JavaScript also treats the empty string as falsy, see `jsFalsy`. -/
structure ProcessEnv where
  OPENWEATHER_API_KEY : Option String
  NEWS_API_KEY : Option String
deriving Repr, DecidableEq

/-- Truthiness test `!x` for a `string | undefined` value: falsy iff the
variable is undefined or the empty string. -/
def jsFalsy (s : Option String) : Bool :=
  s = none || s = some ""

/-- `x || d` for a possibly-absent string argument (`timezone || DEFAULTS.TIMEZONE`). -/
def jsOrStr (s : Option String) (d : String) : String :=
  match s with
  | none => d
  | some t => if t = "" then d else t

/-- `x || d` for a number (`count || DEFAULTS.NEWS_COUNT`): `0` is falsy. -/
def jsOrNum (x d : ℚ) : ℚ :=
  if x = 0 then d else x

/-- The `DEFAULTS` constant of `tools.ts`. -/
structure Defaults where
  NEWS_COUNT : ℚ
  TIMEZONE : String
deriving Repr, DecidableEq

def DEFAULTS : Defaults :=
  { NEWS_COUNT := 3, TIMEZONE := "UTC" }

/-- `Math.round`: round half toward positive infinity. -/
def jsRound (q : ℚ) : ℤ :=
  ⌊q + 1 / 2⌋

/-- Decimal rendering of a rational, matching how JavaScript prints the
numbers that occur in this development: integers print with no decimal point,
finite decimal fractions print their shortest exact expansion (e.g. `133.5`).
Rationals with a non-terminating decimal expansion fall back to a fraction
rendering; no claim exercises that case, since JavaScript's shortest-roundtrip
float printing is outside the idealisation. -/
def ratToJsString (q : ℚ) : String :=
  if q.den = 1 then
    toString q.num
  else
    match (List.range 30).find? (fun k => (q * (10 : ℚ) ^ (k + 1)).den = 1) with
    | some k =>
        let e := k + 1
        let n := (q * (10 : ℚ) ^ e).num
        let m := n.natAbs
        let fpDigits := toString (m % 10 ^ e)
        let pad := String.mk (List.replicate (e - fpDigits.length) '0')
        (if n < 0 then "-" else "") ++ toString (m / 10 ^ e) ++ "." ++ pad ++ fpDigits
    | none => toString q.num ++ "/" ++ toString q.den

/-- `Number.prototype.toFixed(2)` on the idealised rational value: round to
two decimal places (ties away from zero) and always print two fraction
digits. -/
def toFixed2 (q : ℚ) : String :=
  let n : ℤ := if 0 ≤ q then ⌊q * 100 + 1 / 2⌋ else -⌊-(q * 100) + 1 / 2⌋
  let m := n.natAbs
  let fp := m % 100
  (if n < 0 then "-" else "") ++ toString (m / 100) ++ "." ++
    (if fp < 10 then "0" else "") ++ toString fp

/-! ## Calculator: `expression.replace(/[^0-9+\-*\/().\s]/g, '')` followed by
`new Function('return ' + sanitized)()`.

The sanitizer strips every character outside digits, `+ - * / ( ) .` and
whitespace; the surviving alphabet admits only JavaScript arithmetic
expressions (decimal literals, unary and binary `+ -`, binary `* /`,
parentheses) or the empty body `return ;`, which yields `undefined`.  The
evaluator below is that fragment of JavaScript expression evaluation over
idealised numbers, with division producing `Infinity` / `NaN` as in JS.
(Exotica of the surviving alphabet that no claim touches — the `**` operator
and legacy octal literals — are not modelled.) -/

/-- Characters kept by the sanitizing regex `[^0-9+\-*\/().\s]` (the `\s`
class restricted to its ASCII members, the only ones the claims use). -/
def isAllowedCalcChar (c : Char) : Bool :=
  c.isDigit || c = '+' || c = '-' || c = '*' || c = '/' || c = '(' || c = ')' ||
    c = '.' || c = ' ' || c = '\t' || c = '\n' || c = '\r' || c = '\x0b' || c = '\x0c'

/-- `expression.replace(/[^0-9+\-*\/().\s]/g, '')`. -/
def sanitize (s : String) : String :=
  String.mk (s.data.filter isAllowedCalcChar)

/-- Whitespace characters (ASCII members of the regex class `\s`). -/
def isWsChar (c : Char) : Bool :=
  c = ' ' || c = '\t' || c = '\n' || c = '\r' || c = '\x0b' || c = '\x0c'

/-- A JavaScript value producible by evaluating a sanitized expression. -/
inductive JsVal where
  | undef
  | nan
  | inf
  | neginf
  | num (q : ℚ)
deriving Repr, DecidableEq

/-- JavaScript unary negation on the evaluator's values. -/
def JsVal.neg : JsVal → JsVal
  | .num q => .num (-q)
  | .inf => .neginf
  | .neginf => .inf
  | _ => .nan

/-- JavaScript `+` on the evaluator's values. -/
def JsVal.add : JsVal → JsVal → JsVal
  | .num a, .num b => .num (a + b)
  | .num _, .inf => .inf
  | .inf, .num _ => .inf
  | .inf, .inf => .inf
  | .num _, .neginf => .neginf
  | .neginf, .num _ => .neginf
  | .neginf, .neginf => .neginf
  | _, _ => .nan

/-- JavaScript binary `-`. -/
def JsVal.sub (a b : JsVal) : JsVal :=
  a.add b.neg

/-- JavaScript `*`. -/
def JsVal.mul : JsVal → JsVal → JsVal
  | .num a, .num b => .num (a * b)
  | .num a, .inf => if 0 < a then .inf else if a < 0 then .neginf else .nan
  | .inf, .num a => if 0 < a then .inf else if a < 0 then .neginf else .nan
  | .num a, .neginf => if 0 < a then .neginf else if a < 0 then .inf else .nan
  | .neginf, .num a => if 0 < a then .neginf else if a < 0 then .inf else .nan
  | .inf, .inf => .inf
  | .inf, .neginf => .neginf
  | .neginf, .inf => .neginf
  | .neginf, .neginf => .inf
  | _, _ => .nan

/-- JavaScript `/` (division by zero gives signed infinity, `0/0` gives
`NaN`; the sign of JavaScript's negative zero is not modelled). -/
def JsVal.div : JsVal → JsVal → JsVal
  | .num a, .num b =>
      if b = 0 then (if 0 < a then .inf else if a < 0 then .neginf else .nan)
      else .num (a / b)
  | .num _, .inf => .num 0
  | .num _, .neginf => .num 0
  | .inf, .num b => if 0 ≤ b then .inf else .neginf
  | .neginf, .num b => if 0 ≤ b then .neginf else .inf
  | _, _ => .nan

/-- Tokens of the sanitized-expression alphabet. -/
inductive CalcTok where
  | lit (q : ℚ)
  | plus
  | minus
  | star
  | slash
  | lparen
  | rparen
deriving Repr, DecidableEq

/-- Numeric value of a digit string. -/
def digitsVal (ds : List Char) : ℕ :=
  ds.foldl (fun a c => 10 * a + (c.toNat - '0'.toNat)) 0

/-- Lex one JavaScript decimal literal (`12`, `12.5`, `.5`, `5.`); a lone `.`
is a syntax error. -/
def lexNum (cs : List Char) : Option (ℚ × List Char) :=
  let intDigits := cs.takeWhile Char.isDigit
  let rest1 := cs.dropWhile Char.isDigit
  match rest1 with
  | '.' :: rest2 =>
      let fracDigits := rest2.takeWhile Char.isDigit
      let rest3 := rest2.dropWhile Char.isDigit
      if intDigits.isEmpty && fracDigits.isEmpty then none
      else
        some ((digitsVal intDigits : ℚ) +
          (digitsVal fracDigits : ℚ) / (10 : ℚ) ^ fracDigits.length, rest3)
  | _ =>
      if intDigits.isEmpty then none
      else some ((digitsVal intDigits : ℚ), rest1)

/-- Tokenize a sanitized character list (fuel-indexed; `none` is a
`SyntaxError`). -/
def lexCalc : ℕ → List Char → Option (List CalcTok)
  | 0, _ => none
  | _ + 1, [] => some []
  | fuel + 1, c :: cs =>
      if isWsChar c then lexCalc fuel cs
      else if c = '+' then Option.map (fun ts => CalcTok.plus :: ts) (lexCalc fuel cs)
      else if c = '-' then Option.map (fun ts => CalcTok.minus :: ts) (lexCalc fuel cs)
      else if c = '*' then Option.map (fun ts => CalcTok.star :: ts) (lexCalc fuel cs)
      else if c = '/' then Option.map (fun ts => CalcTok.slash :: ts) (lexCalc fuel cs)
      else if c = '(' then Option.map (fun ts => CalcTok.lparen :: ts) (lexCalc fuel cs)
      else if c = ')' then Option.map (fun ts => CalcTok.rparen :: ts) (lexCalc fuel cs)
      else
        match lexNum (c :: cs) with
        | some (q, rest) => Option.map (fun ts => CalcTok.lit q :: ts) (lexCalc fuel rest)
        | none => none

mutual

/-- `expression := term (('+' | '-') term)*`, evaluated while parsing. -/
def parseE : ℕ → List CalcTok → Option (JsVal × List CalcTok)
  | 0, _ => none
  | fuel + 1, ts => do
      let (v, ts1) ← parseT fuel ts
      parseETail fuel v ts1

def parseETail : ℕ → JsVal → List CalcTok → Option (JsVal × List CalcTok)
  | 0, _, _ => none
  | fuel + 1, v, CalcTok.plus :: ts => do
      let (w, ts1) ← parseT fuel ts
      parseETail fuel (v.add w) ts1
  | fuel + 1, v, CalcTok.minus :: ts => do
      let (w, ts1) ← parseT fuel ts
      parseETail fuel (v.sub w) ts1
  | _ + 1, v, ts => some (v, ts)

/-- `term := unary (('*' | '/') unary)*`. -/
def parseT : ℕ → List CalcTok → Option (JsVal × List CalcTok)
  | 0, _ => none
  | fuel + 1, ts => do
      let (v, ts1) ← parseU fuel ts
      parseTTail fuel v ts1

def parseTTail : ℕ → JsVal → List CalcTok → Option (JsVal × List CalcTok)
  | 0, _, _ => none
  | fuel + 1, v, CalcTok.star :: ts => do
      let (w, ts1) ← parseU fuel ts
      parseTTail fuel (v.mul w) ts1
  | fuel + 1, v, CalcTok.slash :: ts => do
      let (w, ts1) ← parseU fuel ts
      parseTTail fuel (v.div w) ts1
  | _ + 1, v, ts => some (v, ts)

/-- `unary := ('+' | '-') unary | primary` (unary `+` is the identity on
numbers; unary `-` negates). -/
def parseU : ℕ → List CalcTok → Option (JsVal × List CalcTok)
  | 0, _ => none
  | fuel + 1, CalcTok.plus :: ts => parseU fuel ts
  | fuel + 1, CalcTok.minus :: ts => do
      let (v, ts1) ← parseU fuel ts
      some (v.neg, ts1)
  | fuel + 1, ts => parseP fuel ts

/-- `primary := literal | '(' expression ')'`. -/
def parseP : ℕ → List CalcTok → Option (JsVal × List CalcTok)
  | 0, _ => none
  | _ + 1, CalcTok.lit q :: ts => some (JsVal.num q, ts)
  | fuel + 1, CalcTok.lparen :: ts => do
      let (v, ts1) ← parseE fuel ts
      match ts1 with
      | CalcTok.rparen :: ts2 => some (v, ts2)
      | _ => none
  | _, _ => none

end

/-- `new Function('return ' + s)()` on a sanitized body `s`: an empty or
all-whitespace body returns `undefined`; otherwise the body must be a single
arithmetic expression consuming every token, else a `SyntaxError` is thrown. -/
def jsEvalArith (s : String) : Except JsError JsVal :=
  match lexCalc (s.length + 1) s.data with
  | none => .error { message := "SyntaxError" }
  | some [] => .ok JsVal.undef
  | some ts =>
      match parseE (4 * ts.length + 8) ts with
      | some (v, []) => .ok v
      | _ => .error { message := "SyntaxError" }

/-- JavaScript string conversion of an evaluated value, as interpolated into
the template result. -/
def jsValToString : JsVal → String
  | .undef => "undefined"
  | .nan => "NaN"
  | .inf => "Infinity"
  | .neginf => "-Infinity"
  | .num q => ratToJsString q

/-! ## Tool executors

Each `*.execute` in `tools.ts` is an `async` arrow of shape
`try { body } catch (error) { return fixedMessage }`.  The body is embedded
as a function into `Except JsError String`; `runTool` is the catch wrapper.
Upstream interaction (`fetch` + `res.json()`) appears as a `Response` record
inside the per-tool environment, with `Except` marking the points where the
awaited operation can throw.  Nested JSON paths (`data.sys.country`,
`data.main.temp`, `data.wind.speed`, `chart.result[0].meta`) are flattened
into typed records; an upstream payload on which the field accesses of the
source would throw is represented by an erring `json` component. -/

/-- A `fetch` response: its `ok` flag and the outcome of `res.json()`. -/
structure Response (α : Type) where
  ok : Bool
  json : Except JsError α

/-- The `try { ... } catch (error) { return handler }` wrapper every tool
uses: a thrown body is converted into the tool's fixed failure message. -/
def runTool (body : Except JsError String) (handler : String) : Except JsError String :=
  match body with
  | .ok s => .ok s
  | .error _ => .ok handler

/-- The fields of `data` read by the weather tool (`data.name`,
`data.sys.country`, `data.main.*`, `data.weather[0].description`,
`data.wind.speed`). -/
structure WeatherData where
  name : String
  country : String
  temp : ℚ
  feels_like : ℚ
  weatherDescription : String
  humidity : ℚ
  windSpeed : ℚ

/-- Environment of one weather invocation. -/
structure WeatherEnv where
  processEnv : ProcessEnv
  fetchResult : Except JsError (Response WeatherData)

/-- The `try` block of `weatherTool.execute`. -/
def weatherBody (city : String) (env : WeatherEnv) : Except JsError String := do
  let apiKey := env.processEnv.OPENWEATHER_API_KEY
  if jsFalsy apiKey then
    return "Weather API key not configured."
  let res ← env.fetchResult
  if !res.ok then
    throw { message := "City not found" }
  let data ← res.json
  return data.name ++ ", " ++ data.country ++ ": " ++ toString (jsRound data.temp) ++
    "°C (feels like " ++ toString (jsRound data.feels_like) ++ "°C), " ++
    data.weatherDescription ++ ". Humidity: " ++ ratToJsString data.humidity ++
    "%, Wind: " ++ ratToJsString data.windSpeed ++ " m/s"

/-- Environment of one time invocation: `formatNow tz` is
`new Intl.DateTimeFormat('en-US', { timeZone: tz, ... }).format(now)`, which
throws a `RangeError` on an invalid timezone identifier. -/
structure TimeEnv where
  processEnv : ProcessEnv
  formatNow : String → Except JsError String

/-- The `try` block of `timeTool.execute`. -/
def timeBody (timezone : Option String) (env : TimeEnv) : Except JsError String := do
  let tz := jsOrStr timezone DEFAULTS.TIMEZONE
  let s ← env.formatNow tz
  return s ++ " (" ++ tz ++ ")"

/-- The arguments of the currency tool (`amount`, `from`, `to`). -/
structure CurrencyArgs where
  amount : ℚ
  «from» : String
  «to» : String

/-- The fields of `data` read by the currency tool: the `rates` table. -/
structure CurrencyData where
  rates : List (String × ℚ)

/-- Environment of one currency invocation. -/
structure CurrencyEnv where
  processEnv : ProcessEnv
  fetchResult : Except JsError (Response CurrencyData)

/-- The `try` block of `currencyTool.execute`.  `data.rates[to.toUpperCase()]`
is a table lookup; `if (!rate) throw ...` also fires on a zero rate (falsy). -/
def currencyBody (a : CurrencyArgs) (env : CurrencyEnv) : Except JsError String := do
  let res ← env.fetchResult
  let data ← res.json
  match data.rates.find? (fun r => r.1 = a.«to».toUpper) with
  | none => throw { message := "Currency not found" }
  | some r =>
      if r.2 = 0 then
        throw { message := "Currency not found" }
      else
        let converted := toFixed2 (a.amount * r.2)
        return ratToJsString a.amount ++ " " ++ a.«from».toUpper ++ " = " ++ converted ++
          " " ++ a.«to».toUpper ++ " (Rate: 1 " ++ a.«from».toUpper ++ " = " ++
          ratToJsString r.2 ++ " " ++ a.«to».toUpper ++ ")"

/-- An article as read by the news tool. -/
structure NewsArticle where
  title : String
  publishedAt : String

/-- The fields of `data` read by the news tool; `articles` may be absent
(`data.articles?.length`). -/
structure NewsData where
  articles : Option (List NewsArticle)

/-- The arguments of the news tool; `count` is optional with zod default
`DEFAULTS.NEWS_COUNT`, so `none` models an absent argument. -/
structure NewsArgs where
  topic : String
  count : Option ℚ

/-- Environment of one news invocation: the upstream response as a function
of the `pageSize` request parameter, plus
`new Date(s).toLocaleDateString()`. -/
structure NewsEnv where
  processEnv : ProcessEnv
  fetch : ℚ → Except JsError (Response NewsData)
  localeDate : String → String

/-- `Math.min(Math.max(count || DEFAULTS.NEWS_COUNT, 1), 5)` applied after
zod's `.default(DEFAULTS.NEWS_COUNT)` fills an absent argument. -/
def newsArticleCount (count : Option ℚ) : ℚ :=
  min (max (jsOrNum (count.getD DEFAULTS.NEWS_COUNT) DEFAULTS.NEWS_COUNT) 1) 5

/-- The `try` block of `newsTool.execute`. -/
def newsBody (a : NewsArgs) (env : NewsEnv) : Except JsError String := do
  let apiKey := env.processEnv.NEWS_API_KEY
  if jsFalsy apiKey then
    return "News API key not configured."
  let articleCount := newsArticleCount a.count
  let res ← env.fetch articleCount
  let data ← res.json
  let articles := data.articles.getD []
  if articles.isEmpty then
    return "No recent news found for \"" ++ a.topic ++ "\"."
  let headlines := String.intercalate "\n" (articles.enum.map
    (fun p => toString (p.1 + 1) ++ ". " ++ p.2.title ++ " (" ++
      env.localeDate p.2.publishedAt ++ ")"))
  return "Latest news on \"" ++ a.topic ++ "\":\n" ++ headlines

/-- `chart.result[0].meta` as read by the stock tool. -/
structure StockMeta where
  regularMarketPrice : ℚ
  regularMarketChange : ℚ
  regularMarketChangePercent : ℚ

/-- The chart payload: `none` models `!data.chart?.result?.[0]`. -/
structure StockChart where
  result : Option StockMeta

/-- Environment of one stock invocation. -/
structure StockEnv where
  processEnv : ProcessEnv
  fetchResult : Except JsError (Response StockChart)

/-- The `try` block of `stockTool.execute`. -/
def stockBody (symbol : String) (env : StockEnv) : Except JsError String := do
  let res ← env.fetchResult
  let data ← res.json
  match data.result with
  | none =>
      return "Stock \"" ++ symbol ++ "\" not found. Try: AAPL, MSFT, GOOGL, TSLA, AMZN"
  | some meta =>
      let sign := if 0 ≤ meta.regularMarketChange then "+" else ""
      return symbol.toUpper ++ ": $" ++ toFixed2 meta.regularMarketPrice ++ " (" ++ sign ++
        toFixed2 meta.regularMarketChange ++ ", " ++
        toFixed2 meta.regularMarketChangePercent ++ "%)"

/-- The payload of `https://ipapi.co/json/` as read by the location tool. -/
structure LocationData where
  city : String
  region : String
  country_name : String
  country_code : String
  ip : String
  timezone : String
  currency : String

/-- Environment of one location invocation. -/
structure LocationEnv where
  processEnv : ProcessEnv
  fetchResult : Except JsError (Response LocationData)

/-- The `try` block of `locationTool.execute`. -/
def locationBody (_ : Unit) (env : LocationEnv) : Except JsError String := do
  let res ← env.fetchResult
  let data ← res.json
  return "Location: " ++ data.city ++ ", " ++ data.region ++ ", " ++ data.country_name ++
    " (" ++ data.country_code ++ ")\nIP: " ++ data.ip ++ "\nTimezone: " ++ data.timezone ++
    "\nCurrency: " ++ data.currency

/-- Environment of one calculator invocation (the calculator performs no
upstream interaction; it still runs in the same process environment). -/
structure CalcEnv where
  processEnv : ProcessEnv

/-- The `try` block of `calculatorTool.execute`: sanitize, evaluate the
remaining tokens with the dynamic code interpreter, interpolate. -/
def calculatorBody (expression : String) (_ : CalcEnv) : Except JsError String := do
  let sanitized := sanitize expression
  let result ← jsEvalArith sanitized
  return expression ++ " = " ++ jsValToString result

/-! ## The registry (`export const tools = { ... }`) -/

/-- One field of a zod `parameters` object: name, primitive type, and
whether it is required. -/
structure ParamField where
  name : String
  type : String
  required : Bool
deriving Repr, DecidableEq

/-- A tool object as built by `tool({ description, parameters, execute })`:
its model-facing surface (description and argument schema) together with its
executable behaviour, split into the `try` body and the fixed message the
`catch` returns. -/
structure PackedTool where
  description : String
  parameters : List ParamField
  Args : Type
  Env : Type
  body : Args → Env → Except JsError String
  catchMsg : Args → String

/-- `execute`: the body guarded by the catch-all handler. -/
def PackedTool.execute (t : PackedTool) (a : t.Args) (e : t.Env) : Except JsError String :=
  runTool (t.body a e) (t.catchMsg a)

def weatherTool : PackedTool where
  description := "Get current real-time weather for any city worldwide"
  parameters := [{ name := "city", type := "string", required := true }]
  Args := String
  Env := WeatherEnv
  body := weatherBody
  catchMsg := fun city =>
    "Couldn't fetch weather for \"" ++ city ++ "\". Please check the city name."

def timeTool : PackedTool where
  description := "Get current date and time for any timezone or city"
  parameters := [{ name := "timezone", type := "string", required := false }]
  Args := Option String
  Env := TimeEnv
  body := timeBody
  catchMsg := fun _ =>
    "Invalid timezone. Examples: Asia/Kathmandu, America/New_York, Europe/London"

def currencyTool : PackedTool where
  description := "Convert currency with real-time exchange rates"
  parameters := [{ name := "amount", type := "number", required := true },
    { name := "from", type := "string", required := true },
    { name := "to", type := "string", required := true }]
  Args := CurrencyArgs
  Env := CurrencyEnv
  body := currencyBody
  catchMsg := fun _ => "Couldn't fetch exchange rate. Try: USD, EUR, GBP, INR, NPR, JPY"

def newsTool : PackedTool where
  description := "Get latest news headlines on any topic"
  parameters := [{ name := "topic", type := "string", required := true },
    { name := "count", type := "number", required := false }]
  Args := NewsArgs
  Env := NewsEnv
  body := newsBody
  catchMsg := fun _ => "News service temporarily unavailable."

def stockTool : PackedTool where
  description := "Get real-time stock/crypto prices"
  parameters := [{ name := "symbol", type := "string", required := true }]
  Args := String
  Env := StockEnv
  body := stockBody
  catchMsg := fun _ => "Couldn't fetch stock data."

def locationTool : PackedTool where
  description := "Get user location details based on IP (no parameters needed)"
  parameters := []
  Args := Unit
  Env := LocationEnv
  body := locationBody
  catchMsg := fun _ => "Couldn't detect location."

def calculatorTool : PackedTool where
  description := "Perform mathematical calculations"
  parameters := [{ name := "expression", type := "string", required := true }]
  Args := String
  Env := CalcEnv
  body := calculatorBody
  catchMsg := fun _ => "Invalid expression. Use: +, -, *, /, sqrt(), parentheses"

/-- `export const tools = { getWeather: weatherTool, ... }`. -/
def tools : List (String × PackedTool) :=
  [("getWeather", weatherTool), ("getTime", timeTool), ("convertCurrency", currencyTool),
    ("getNews", newsTool), ("getStockPrice", stockTool), ("getLocation", locationTool),
    ("calculate", calculatorTool)]

/-! ## The chat route (`POST` in `app/api/chat/route.ts`)

The handler parses `{ messages }` from the request and calls `streamText`
with a model id, the system prompt, and the converted messages.  The
`tools` and `maxSteps` options are commented out in the source
(`// tools,` and `// maxSteps: 5,`), so the call carries neither; the
record below captures exactly the option set passed to `streamText`. -/

/-- A chat message as supplied by the client. -/
structure UIMessage where
  role : String
  text : String

/-- The options the route passes to `streamText`.  `tools = none` means the
option is absent from the call (not an empty registry); likewise
`maxSteps`. -/
structure StreamTextCall where
  model : String
  system : String
  messages : List UIMessage
  tools : Option (List (String × PackedTool))
  maxSteps : Option ℕ

/-- The system prompt constant of the route. -/
def systemPrompt : String :=
  "You are Sambhala AI, an intelligent academic assistant created by Roshan Singh. Roshan is an independent researcher specializing in Artificial Intelligence, Machine Learning, and Data Science. You have been trained and developed by him to provide helpful, accurate, and friendly academic assistance. When interacting with Roshan specifically, engage with him as your creator and developer with appropriate respect and familiarity. For other users, maintain a professional, helpful demeanor as their academic assistant. Your personality is warm, knowledgeable, and encouraging. You excel at explaining complex AI/ML concepts, helping with research, coding, and data science projects."

/-- The `streamText` invocation the route handler performs for a request
carrying `messages`. -/
def POST (messages : List UIMessage) : StreamTextCall where
  model := "moonshotai/kimi-k2-instruct"
  system := systemPrompt
  messages := messages
  tools := none
  maxSteps := none

/-! ## Theorems -/

instance {ε α : Type} [DecidableEq ε] [DecidableEq α] : DecidableEq (Except ε α)
  | .ok a, .ok b =>
      if h : a = b then .isTrue (by rw [h]) else .isFalse (fun hh => by cases hh; exact h rfl)
  | .error a, .error b =>
      if h : a = b then .isTrue (by rw [h]) else .isFalse (fun hh => by cases hh; exact h rfl)
  | .ok _, .error _ => .isFalse (fun hh => by cases hh)
  | .error _, .ok _ => .isFalse (fun hh => by cases hh)

/-- Claim C1: refuted by the code.  The calculator executor does not reject an
expression containing disallowed characters: on "sqrt(16)" it strips the
identifier characters, hands the surviving tokens "(16)" to the dynamic code
interpreter, and returns the success result "sqrt(16) = 16" — a partial
evaluation of the remaining tokens instead of a rejection. -/
theorem calculator_evaluates_disallowed_input :
    sanitize "sqrt(16)" = "(16)" ∧
    calculatorTool.execute "sqrt(16)"
        { processEnv := { OPENWEATHER_API_KEY := none, NEWS_API_KEY := none } } =
      Except.ok "sqrt(16) = 16" :=
  ⟨by with_unfolding_all rfl, by with_unfolding_all rfl⟩

/-- Claim C5: the calculator executor on the input "2+2" returns the success
result "2+2 = 4". -/
theorem calculator_two_plus_two :
    calculatorTool.execute "2+2"
        { processEnv := { OPENWEATHER_API_KEY := none, NEWS_API_KEY := none } } =
      Except.ok "2+2 = 4" := by
  with_unfolding_all rfl

/-- Claim C2: refuted by the code.  The registry declares all seven
capabilities, but the route's `streamText` call carries no `tools` option at
all (the activation is commented out), so the model stream client is never
given the capability surface. -/
theorem post_omits_capability_registry (msgs : List UIMessage) :
    (POST msgs).tools = none ∧
    tools.map Prod.fst = ["getWeather", "getTime", "convertCurrency", "getNews",
      "getStockPrice", "getLocation", "calculate"] :=
  ⟨rfl, rfl⟩

/-- Claim C3: refuted by the code.  The route configures no step budget: the
`maxSteps` option (the commented-out `maxSteps: 5`) is absent from the
`streamText` call, so no `Streaming → Dispatching` cycle bounded at five
steps exists in the code. -/
theorem post_omits_step_budget (msgs : List UIMessage) :
    (POST msgs).maxSteps = none :=
  rfl

/-- Claim C4: every registered capability executor is total — for every
argument value and every upstream outcome, including thrown fetch and JSON
errors, `execute` returns a string (success payload or normalized failure
message) and never propagates an exception to its caller. -/
theorem tools_execute_never_throw :
    ∀ p ∈ tools, ∀ (a : p.2.Args) (e : p.2.Env),
      ∃ s : String, p.2.execute a e = Except.ok s := by
  intro p _ a e
  unfold PackedTool.execute runTool
  cases h : p.2.body a e with
  | ok s => exact ⟨s, rfl⟩
  | error err => exact ⟨p.2.catchMsg a, rfl⟩

/-- Witness for C4 at a concrete tool, argument, and throwing upstream. -/
theorem tools_execute_never_throw_witness :
    ∃ s : String, weatherTool.execute "Kathmandu"
      { processEnv := { OPENWEATHER_API_KEY := some "k", NEWS_API_KEY := none },
        fetchResult := Except.error { message := "network down" } } = Except.ok s :=
  tools_execute_never_throw ("getWeather", weatherTool) (List.Mem.head _) "Kathmandu"
    { processEnv := { OPENWEATHER_API_KEY := some "k", NEWS_API_KEY := none },
      fetchResult := Except.error { message := "network down" } }

/-- Claim C9: the failure message produced when the try body throws is
independent of the thrown error.  For a fixed argument, any two runs whose
bodies throw — whatever the error values or upstream payloads — yield the
identical failure string, namely the tool's fixed catch message, a function
of the arguments alone (never of the error, payload, or credentials). -/
theorem failure_message_ignores_error :
    ∀ p ∈ tools, ∀ (a : p.2.Args) (e₁ e₂ : p.2.Env) (err₁ err₂ : JsError),
      p.2.body a e₁ = .error err₁ → p.2.body a e₂ = .error err₂ →
      p.2.execute a e₁ = p.2.execute a e₂ ∧
      p.2.execute a e₁ = Except.ok (p.2.catchMsg a) := by
  intro p _ a e₁ e₂ err₁ err₂ h₁ h₂
  unfold PackedTool.execute runTool
  rw [h₁, h₂]
  exact ⟨rfl, rfl⟩

/-- Witness for C9: two currency runs with the same arguments whose fetches
throw different errors produce the identical fixed failure string. -/
theorem failure_message_ignores_error_witness :
    currencyTool.execute { amount := 5, «from» := "usd", «to» := "npr" }
        { processEnv := { OPENWEATHER_API_KEY := none, NEWS_API_KEY := none },
          fetchResult := Except.error { message := "ECONNREFUSED 1.2.3.4" } } =
      currencyTool.execute { amount := 5, «from» := "usd", «to» := "npr" }
        { processEnv := { OPENWEATHER_API_KEY := none, NEWS_API_KEY := none },
          fetchResult := Except.error { message := "TypeError: fetch failed" } } ∧
    currencyTool.execute { amount := 5, «from» := "usd", «to» := "npr" }
        { processEnv := { OPENWEATHER_API_KEY := none, NEWS_API_KEY := none },
          fetchResult := Except.error { message := "ECONNREFUSED 1.2.3.4" } } =
      Except.ok "Couldn't fetch exchange rate. Try: USD, EUR, GBP, INR, NPR, JPY" :=
  failure_message_ignores_error ("convertCurrency", currencyTool)
    (List.Mem.tail _ (List.Mem.tail _ (List.Mem.head _)))
    { amount := 5, «from» := "usd", «to» := "npr" }
    { processEnv := { OPENWEATHER_API_KEY := none, NEWS_API_KEY := none },
      fetchResult := Except.error { message := "ECONNREFUSED 1.2.3.4" } }
    { processEnv := { OPENWEATHER_API_KEY := none, NEWS_API_KEY := none },
      fetchResult := Except.error { message := "TypeError: fetch failed" } }
    { message := "ECONNREFUSED 1.2.3.4" } { message := "TypeError: fetch failed" }
    (by with_unfolding_all rfl) (by with_unfolding_all rfl)

/-- Claim C8: a missing credential degrades exactly the tool that needs it.
With `OPENWEATHER_API_KEY` falsy every weather invocation returns the fixed
"not configured" failure and the result is independent of the fetch component
(no upstream interaction is consulted); likewise for the news tool and
`NEWS_API_KEY`.  Every other executor's result is independent of the process
environment entirely, so it is unaffected by any missing credential. -/
theorem missing_credential_degrades_only_that_tool :
    (∀ (city : String) (p : ProcessEnv) (f g : Except JsError (Response WeatherData)),
      jsFalsy p.OPENWEATHER_API_KEY = true →
        weatherTool.execute city { processEnv := p, fetchResult := f } =
          Except.ok "Weather API key not configured." ∧
        weatherTool.execute city { processEnv := p, fetchResult := f } =
          weatherTool.execute city { processEnv := p, fetchResult := g }) ∧
    (∀ (a : NewsArgs) (p : ProcessEnv) (F G : ℚ → Except JsError (Response NewsData))
        (d d' : String → String),
      jsFalsy p.NEWS_API_KEY = true →
        newsTool.execute a { processEnv := p, fetch := F, localeDate := d } =
          Except.ok "News API key not configured." ∧
        newsTool.execute a { processEnv := p, fetch := F, localeDate := d } =
          newsTool.execute a { processEnv := p, fetch := G, localeDate := d' }) ∧
    (∀ (tz : Option String) (fmt : String → Except JsError String) (p p' : ProcessEnv),
      timeTool.execute tz { processEnv := p, formatNow := fmt } =
        timeTool.execute tz { processEnv := p', formatNow := fmt }) ∧
    (∀ (a : CurrencyArgs) (f : Except JsError (Response CurrencyData)) (p p' : ProcessEnv),
      currencyTool.execute a { processEnv := p, fetchResult := f } =
        currencyTool.execute a { processEnv := p', fetchResult := f }) ∧
    (∀ (sym : String) (f : Except JsError (Response StockChart)) (p p' : ProcessEnv),
      stockTool.execute sym { processEnv := p, fetchResult := f } =
        stockTool.execute sym { processEnv := p', fetchResult := f }) ∧
    (∀ (f : Except JsError (Response LocationData)) (p p' : ProcessEnv),
      locationTool.execute () { processEnv := p, fetchResult := f } =
        locationTool.execute () { processEnv := p', fetchResult := f }) ∧
    (∀ (e : String) (p p' : ProcessEnv),
      calculatorTool.execute e { processEnv := p } =
        calculatorTool.execute e { processEnv := p' }) := by
  refine ⟨?_, ?_, ?_, ?_, ?_, ?_, ?_⟩
  · intro city p f g h
    have key : ∀ f' : Except JsError (Response WeatherData),
        weatherTool.execute city { processEnv := p, fetchResult := f' } =
          Except.ok "Weather API key not configured." := by
      intro f'
      simp [PackedTool.execute, weatherTool, weatherBody, runTool, h]
      rfl
    exact ⟨key f, (key f).trans (key g).symm⟩
  · intro a p F G d d' h
    have key : ∀ (F' : ℚ → Except JsError (Response NewsData)) (d'' : String → String),
        newsTool.execute a { processEnv := p, fetch := F', localeDate := d'' } =
          Except.ok "News API key not configured." := by
      intro F' d''
      simp [PackedTool.execute, newsTool, newsBody, runTool, h]
      rfl
    exact ⟨key F d, (key F d).trans (key G d').symm⟩
  · intro tz fmt p p'
    rfl
  · intro a f p p'
    rfl
  · intro sym f p p'
    rfl
  · intro f p p'
    rfl
  · intro e p p'
    rfl

/-- Witness for C8: with the respective key unset, the weather and news tools
return their "not configured" failures even though the modelled upstream would
throw if consulted. -/
theorem missing_credential_degrades_only_that_tool_witness :
    weatherTool.execute "Paris"
        { processEnv := { OPENWEATHER_API_KEY := none, NEWS_API_KEY := some "nk" },
          fetchResult := Except.error { message := "would throw if fetched" } } =
      Except.ok "Weather API key not configured." ∧
    newsTool.execute { topic := "ai", count := none }
        { processEnv := { OPENWEATHER_API_KEY := some "wk", NEWS_API_KEY := none },
          fetch := fun _ => Except.error { message := "would throw if fetched" },
          localeDate := fun _ => "1/1/2026" } =
      Except.ok "News API key not configured." :=
  ⟨(missing_credential_degrades_only_that_tool.1 "Paris"
      { OPENWEATHER_API_KEY := none, NEWS_API_KEY := some "nk" }
      (Except.error { message := "would throw if fetched" })
      (Except.error { message := "would throw if fetched" }) (by with_unfolding_all rfl)).1,
   (missing_credential_degrades_only_that_tool.2.1 { topic := "ai", count := none }
      { OPENWEATHER_API_KEY := some "wk", NEWS_API_KEY := none }
      (fun _ => Except.error { message := "would throw if fetched" })
      (fun _ => Except.error { message := "would throw if fetched" })
      (fun _ => "1/1/2026") (fun _ => "1/1/2026") (by with_unfolding_all rfl)).1⟩

/-- The clamp is the identity on values already in `1..5`. -/
theorem newsArticleCount_fixed (v : ℚ) (h1 : 1 ≤ v) (h5 : v ≤ 5) :
    newsArticleCount (some v) = v := by
  have hne : v ≠ 0 := by
    intro h0
    rw [h0] at h1
    norm_num at h1
  unfold newsArticleCount jsOrNum
  rw [show (some v).getD DEFAULTS.NEWS_COUNT = v from rfl, if_neg hne,
    max_eq_left h1, min_eq_left h5]

/-- Claim C7: the page size requested upstream is `min (max (count || 3) 1) 5`,
always within 1..5; an absent count argument yields the default 3; executing
with the already-clamped count is indistinguishable, i.e. the executor's
upstream request uses exactly the clamped value; and an empty upstream article
set produces the no-results message, not an exception. -/
theorem news_count_clamped_and_empty_ok :
    (∀ c : Option ℚ, 1 ≤ newsArticleCount c ∧ newsArticleCount c ≤ 5) ∧
    newsArticleCount none = 3 ∧
    (∀ (a : NewsArgs) (env : NewsEnv),
      newsTool.execute a env =
        newsTool.execute { topic := a.topic, count := some (newsArticleCount a.count) } env) ∧
    newsTool.execute { topic := "ai", count := some 2 }
        { processEnv := { OPENWEATHER_API_KEY := none, NEWS_API_KEY := some "key" },
          fetch := fun _ => Except.ok { ok := true, json := Except.ok { articles := some [] } },
          localeDate := fun _ => "" } =
      Except.ok "No recent news found for \"ai\"." := by
  have bounds : ∀ c : Option ℚ, 1 ≤ newsArticleCount c ∧ newsArticleCount c ≤ 5 := by
    intro c
    exact ⟨le_min (le_max_right _ 1) (by norm_num), min_le_right _ 5⟩
  refine ⟨bounds, by with_unfolding_all rfl, ?_, by with_unfolding_all rfl⟩
  intro a env
  have idem : newsArticleCount (some (newsArticleCount a.count)) = newsArticleCount a.count :=
    newsArticleCount_fixed _ (bounds a.count).1 (bounds a.count).2
  show runTool (newsBody a env) (newsTool.catchMsg a) =
    runTool (newsBody { topic := a.topic, count := some (newsArticleCount a.count) } env)
      (newsTool.catchMsg { topic := a.topic, count := some (newsArticleCount a.count) })
  unfold newsBody
  dsimp only
  rw [idem]
  rfl

/-- Claim C6: on a successful fetch the currency executor multiplies the
requested amount by the rate found for the target code in the source
currency's rate table and renders the product with two decimals; when the
target code is absent from the table the lookup is falsy and the executor
returns its fixed failure message. -/
theorem currency_converts_by_multiplication
    (amount : ℚ) (fromC toC : String) (rates : List (String × ℚ))
    (p : ProcessEnv) (ok : Bool) (r : String × ℚ) :
    (rates.find? (fun x => x.1 = toC.toUpper) = some r → r.2 ≠ 0 →
      currencyTool.execute { amount := amount, «from» := fromC, «to» := toC }
          { processEnv := p,
            fetchResult := Except.ok { ok := ok, json := Except.ok { rates := rates } } } =
        Except.ok (ratToJsString amount ++ " " ++ fromC.toUpper ++ " = " ++
          toFixed2 (amount * r.2) ++ " " ++ toC.toUpper ++ " (Rate: 1 " ++
          fromC.toUpper ++ " = " ++ ratToJsString r.2 ++ " " ++ toC.toUpper ++ ")")) ∧
    (rates.find? (fun x => x.1 = toC.toUpper) = none →
      currencyTool.execute { amount := amount, «from» := fromC, «to» := toC }
          { processEnv := p,
            fetchResult := Except.ok { ok := ok, json := Except.ok { rates := rates } } } =
        Except.ok "Couldn't fetch exchange rate. Try: USD, EUR, GBP, INR, NPR, JPY") := by
  have hbody : currencyBody { amount := amount, «from» := fromC, «to» := toC }
      { processEnv := p,
        fetchResult := Except.ok { ok := ok, json := Except.ok { rates := rates } } } =
      (match rates.find? (fun x => decide (x.1 = toC.toUpper)) with
       | none => Except.error { message := "Currency not found" }
       | some r =>
          if r.2 = 0 then Except.error { message := "Currency not found" }
          else Except.ok (ratToJsString amount ++ " " ++ fromC.toUpper ++ " = " ++
            toFixed2 (amount * r.2) ++ " " ++ toC.toUpper ++ " (Rate: 1 " ++
            fromC.toUpper ++ " = " ++ ratToJsString r.2 ++ " " ++ toC.toUpper ++ ")")) := by
    with_unfolding_all rfl
  constructor
  · intro hf hr
    show runTool (currencyBody _ _) _ = _
    rw [hbody, hf]
    dsimp only
    rw [if_neg hr]
    rfl
  · intro hf
    show runTool (currencyBody _ _) _ = _
    rw [hbody, hf]
    rfl

/-- Witness for C6: converting 100 USD with a rate table carrying
`NPR ↦ 133.5` yields `13350.00`, and an unknown target code `XYZ` yields the
fixed failure message. -/
theorem currency_converts_by_multiplication_witness :
    currencyTool.execute { amount := 100, «from» := "USD", «to» := "NPR" }
        { processEnv := { OPENWEATHER_API_KEY := none, NEWS_API_KEY := none },
          fetchResult :=
            Except.ok { ok := true, json := Except.ok { rates := [("NPR", (267 : ℚ) / 2)] } } } =
      Except.ok "100 USD = 13350.00 NPR (Rate: 1 USD = 133.5 NPR)" ∧
    currencyTool.execute { amount := 100, «from» := "USD", «to» := "XYZ" }
        { processEnv := { OPENWEATHER_API_KEY := none, NEWS_API_KEY := none },
          fetchResult :=
            Except.ok { ok := true, json := Except.ok { rates := [("NPR", (267 : ℚ) / 2)] } } } =
      Except.ok "Couldn't fetch exchange rate. Try: USD, EUR, GBP, INR, NPR, JPY" := by
  constructor
  · have h := (currency_converts_by_multiplication 100 "USD" "NPR" [("NPR", (267 : ℚ) / 2)]
      { OPENWEATHER_API_KEY := none, NEWS_API_KEY := none } true ("NPR", (267 : ℚ) / 2)).1
      (by with_unfolding_all rfl) (by norm_num)
    exact h.trans (by with_unfolding_all rfl)
  · exact (currency_converts_by_multiplication 100 "USD" "XYZ" [("NPR", (267 : ℚ) / 2)]
      { OPENWEATHER_API_KEY := none, NEWS_API_KEY := none } true ("NPR", 0)).2
      (by with_unfolding_all rfl)

/-- Claim C10: with the timezone argument absent or empty, the time executor
behaves exactly as if the fixed default `DEFAULTS.TIMEZONE = "UTC"` had been
passed: the `Intl` formatter receives `"UTC"` — not a caller- or server-local
zone, despite the parameter description's "Leave empty for local time". -/
theorem time_absent_timezone_uses_utc :
    DEFAULTS.TIMEZONE = "UTC" ∧
    (∀ env : TimeEnv, timeTool.execute none env = timeTool.execute (some "UTC") env) ∧
    (∀ env : TimeEnv, timeTool.execute (some "") env = timeTool.execute (some "UTC") env) ∧
    (∀ env : TimeEnv,
      timeBody none env = (env.formatNow "UTC").map (fun s => s ++ " (" ++ "UTC" ++ ")")) := by
  refine ⟨rfl, fun env => by with_unfolding_all rfl, fun env => by with_unfolding_all rfl, ?_⟩
  intro env
  have hb : timeBody none env =
      Except.bind (env.formatNow "UTC") (fun s => Except.ok (s ++ " (" ++ "UTC" ++ ")")) := by
    with_unfolding_all rfl
  rw [hb]
  cases h : env.formatNow "UTC" with
  | ok s => with_unfolding_all rfl
  | error e => with_unfolding_all rfl

end Sambhala
